import Mathlib

/-!
A shallow embedding of the EduPal client (a React tutoring app) and proofs
about its session state machine, profile mutators, quiz scoring and the
AI-gateway fallback behaviour.

The data model follows `types.ts`; the transition handlers follow the `App`
component (`handleOnboardingComplete`, `handleSelectSuggested`,
`handleEndSession`, `submitFeedback`, `handleQuizComplete`,
`handleSelectModule`, the session-restore `useEffect` and `QuizView.handleNext`);
the fallback learning path follows `geminiService.generateLearningPath`.

Modelling conventions:
- JavaScript numbers that only ever hold non-negative integers in these code
  paths (scores, minutes, timestamps, indices) are `Nat`.
- `Math.round(x)` for non-negative rational `p/q` is `floor(p/q + 1/2)`,
  i.e. `(2*p + q) / (2*q)` in natural division.
- Fallible remote calls (the Gemini gateway) are passed in as an
  `Except Unit` result; `localStorage` is a pair of optional records; the
  two `JSON.parse` calls of the restore effect are passed in as partial
  parse functions (`String → Option _`), `none` meaning the parse throws.
-/

namespace Edupal

/-- The `View` enum of `App.tsx`. -/
inductive View
  | welcome
  | onboarding
  | dashboard
  | tutoring
  | quiz
  | feedback
deriving DecidableEq

/-- `KnowledgeLevel` from `types.ts`. -/
inductive KnowledgeLevel
  | beginner
  | intermediate
  | advanced
deriving DecidableEq

/-- `LearningGoal` from `types.ts`. -/
inductive LearningGoal
  | examPrep
  | conceptUnderstanding
  | skillBuilding
deriving DecidableEq

/-- `LearningStyle` from `types.ts`. -/
inductive LearningStyle
  | text
  | video
  | quizzes
  | mixed
deriving DecidableEq

/-- `SessionFeedback` from `types.ts` (the string union easy/medium/hard). -/
inductive SessionFeedback
  | easy
  | medium
  | hard
deriving DecidableEq

/-- `PerformanceData` from `types.ts`; `lastFeedback?` is an `Option`. -/
structure PerformanceData where
  quizScores : List Nat
  timeSpentMinutes : Nat
  lastFeedback : Option SessionFeedback
  completedTopics : List String
  averageAccuracy : Nat
deriving DecidableEq

/-- `UserProfile` from `types.ts`. -/
structure UserProfile where
  name : String
  classInfo : String
  subject : String
  level : KnowledgeLevel
  goal : LearningGoal
  style : LearningStyle
  timePerDay : Nat
  topic : String
  language : String
  performance : PerformanceData
deriving DecidableEq

/-- A module's `status` string union from `types.ts`. -/
inductive ModuleStatus
  | locked
  | current
  | completed
deriving DecidableEq

/-- An entry of a module's optional `sources` array from `types.ts`. -/
structure Source where
  uri : String
  title : String
deriving DecidableEq

/-- `Module` from `types.ts`; the optional fields are `Option`s. -/
structure Module where
  id : String
  title : String
  description : String
  status : ModuleStatus
  topics : List String
  videoUrl : Option String
  sources : Option (List Source)
deriving DecidableEq

/-- `LearningPath` from `types.ts`. -/
structure LearningPath where
  modules : List Module
  estimatedWeeks : Nat
  personalizedReasoning : String
deriving DecidableEq

/-- `QuizQuestion` from `types.ts`; `correctAnswer` is an option index. -/
structure QuizQuestion where
  question : String
  options : List String
  correctAnswer : Nat
  explanation : String
deriving DecidableEq

/-- `Quiz` from `types.ts`. -/
structure Quiz where
  title : String
  questions : List QuizQuestion
deriving DecidableEq

/-! ## The gateway fallback path (`geminiService.generateLearningPath`) -/

/-- The single module of the hard-coded fallback path in
`generateLearningPath`'s catch branch. -/
def fallbackModule (topic : String) : Module :=
  { id := "m1"
    title := "Foundations of " ++ topic
    description := "A comprehensive overview of the fundamental principles."
    status := ModuleStatus.current
    topics := ["Terminology", "Core Concepts", "Introductory Theory"]
    videoUrl := some "https://www.youtube.com/watch?v=0pThnRneDjw"
    sources := none }

/-- The hard-coded fallback `LearningPath` returned by
`generateLearningPath` when the Gemini call (or the parse of its reply)
fails. -/
def fallbackPath (profile : UserProfile) : LearningPath :=
  { modules := [fallbackModule profile.topic]
    estimatedWeeks := 4
    personalizedReasoning :=
      "Fallback sequence activated due to search constraints. Focusing on core mastery." }

/-- `generateLearningPath` as seen by the app: the remote call's outcome is
the `remote` argument (`Except.error` models the try block throwing).  On
success every module's status is overwritten with `current` and the grounding
sources are attached (`undefined` when the grounding-chunk list is empty); on
failure the deterministic fallback path is returned. -/
def generateLearningPath (profile : UserProfile)
    (remote : Except Unit LearningPath) (groundingSources : List Source) :
    LearningPath :=
  match remote with
  | Except.ok path =>
      { path with
          modules := path.modules.map fun m =>
            { m with
                status := ModuleStatus.current
                sources :=
                  if groundingSources.length > 0 then some groundingSources
                  else none } }
  | Except.error _ => fallbackPath profile

/-! ## The onboarding draft (`OnboardingView`) -/

/-- The `Partial<UserProfile>` draft held by `OnboardingView`'s `data` state:
the fields never initialised are `Option`s, the rest carry the initial
values of the `useState` call. -/
structure OnboardingDraft where
  name : Option String
  classInfo : Option String
  subject : Option String
  level : KnowledgeLevel
  goal : LearningGoal
  style : LearningStyle
  timePerDay : Nat
  topic : Option String
  language : String
  performance : PerformanceData
deriving DecidableEq

/-- The initial `data` value of `OnboardingView`'s `useState`. -/
def initialDraft : OnboardingDraft :=
  { name := none
    classInfo := none
    subject := none
    level := KnowledgeLevel.beginner
    goal := LearningGoal.conceptUnderstanding
    style := LearningStyle.mixed
    timePerDay := 1
    topic := none
    language := "English"
    performance :=
      { quizScores := []
        timeSpentMinutes := 0
        lastFeedback := none
        completedTopics := []
        averageAccuracy := 0 } }

/-- The field updates `OnboardingView` can apply to its draft: each input's
`onChange` (or button click) runs `setData with one field replaced`. -/
inductive OnboardingUpdate
  | setName (v : String)
  | setClassInfo (v : String)
  | setSubject (v : String)
  | setLevel (v : KnowledgeLevel)
  | setTopic (v : String)
  | setLanguage (v : String)
  | setGoal (v : LearningGoal)
deriving DecidableEq

/-- One `setData` call of `OnboardingView`: an object spread replacing a
single field of the draft. -/
def applyUpdate (d : OnboardingDraft) : OnboardingUpdate → OnboardingDraft
  | OnboardingUpdate.setName v => { d with name := some v }
  | OnboardingUpdate.setClassInfo v => { d with classInfo := some v }
  | OnboardingUpdate.setSubject v => { d with subject := some v }
  | OnboardingUpdate.setLevel v => { d with level := v }
  | OnboardingUpdate.setTopic v => { d with topic := some v }
  | OnboardingUpdate.setLanguage v => { d with language := v }
  | OnboardingUpdate.setGoal v => { d with goal := v }

/-- The draft after a sequence of `setData` edits. -/
def applyUpdates (ops : List OnboardingUpdate) : OnboardingDraft :=
  ops.foldl applyUpdate initialDraft

/-- The `onComplete(data as UserProfile)` cast of `OnboardingView`'s final
step: the draft is handed to `handleOnboardingComplete` unchanged (missing
string fields, impossible once the step buttons' guards let the user
through, default to the empty string). -/
def draftToProfile (d : OnboardingDraft) : UserProfile :=
  { name := d.name.getD ""
    classInfo := d.classInfo.getD ""
    subject := d.subject.getD ""
    level := d.level
    goal := d.goal
    style := d.style
    timePerDay := d.timePerDay
    topic := d.topic.getD ""
    language := d.language
    performance := d.performance }

/-! ## Numeric helpers (JavaScript `Math.round` on non-negative rationals) -/

/-- `Math.round (p / q)` for naturals `p`, `q > 0`: JavaScript rounds half
toward positive infinity, i.e. `floor (p/q + 1/2) = (2*p + q) / (2*q)`. -/
def jsRoundDiv (p q : Nat) : Nat := (2 * p + q) / (2 * q)

/-- The accuracy recomputation of `handleQuizComplete`:
`Math.round ((sum(scores) / (scores.length * 5)) * 100)`. -/
def jsAverageAccuracy (scores : List Nat) : Nat :=
  jsRoundDiv (scores.foldl (· + ·) 0 * 100) (scores.length * 5)

/-- `Math.round (d / 60000)` of `handleEndSession`, for the elapsed
milliseconds `d`: equals `(d + 30000) / 60000` in natural division. -/
def jsElapsedMinutes (d : Nat) : Nat := (d + 30000) / 60000

/-- The pass test `(score / total) >= 0.8` of `handleQuizComplete`, as the
exact rational comparison `4 * total ≤ 5 * score`.  (For the score ranges
this app produces the double-precision evaluation agrees: the literal `0.8`
and the quotient `4/5` round to the same double.  When `total = 0`,
JavaScript yields `NaN >= 0.8 = false` for `score = 0` and
`Infinity >= 0.8 = true` otherwise.) -/
def jsPassed (score total : Nat) : Bool :=
  if total = 0 then decide (score ≠ 0) else decide (4 * total ≤ 5 * score)

/-! ## The session state (`App`'s `useState`/`useRef` cells plus storage) -/

/-- The `App` component's state: its `useState` cells, the `sessionStartTime`
ref, and the two `localStorage` keys (held as decoded records; `saveState`
always writes both). -/
structure AppState where
  view : View
  profile : Option UserProfile
  learningPath : Option LearningPath
  suggestedTitles : List String
  currentModule : Option Module
  isLoading : Bool
  activeQuiz : Option Quiz
  sessionStart : Nat
  storedProfile : Option UserProfile
  storedPath : Option LearningPath
deriving DecidableEq

/-- The state of a freshly mounted `App` (before the restore effect runs)
over an empty store. -/
def initialState : AppState :=
  { view := View.welcome
    profile := none
    learningPath := none
    suggestedTitles := []
    currentModule := none
    isLoading := false
    activeQuiz := none
    sessionStart := 0
    storedProfile := none
    storedPath := none }

/-! ## Transition handlers of `App` -/

/-- `handleOnboardingComplete(userData)`.  `remote` is the outcome of the
awaited `generateLearningPath(userData)` call (`Except.error` = the try
block threw); `suggestions` is the awaited `loadSuggestions` result.  Note
that `setProfile(userData)` runs **before** the try block, so the in-memory
profile is replaced even on failure; the catch branch only logs, and the
finally branch clears the loading flag. -/
def handleOnboardingComplete (userData : UserProfile)
    (remote : Except Unit LearningPath) (suggestions : List String)
    (s : AppState) : AppState :=
  match remote with
  | Except.ok path =>
      { s with
          profile := some userData
          learningPath := some path
          currentModule := path.modules.head?
          storedProfile := some userData
          storedPath := some path
          suggestedTitles := suggestions
          view := View.dashboard
          isLoading := false }
  | Except.error _ =>
      { s with profile := some userData, isLoading := false }

/-- `handleSelectSuggested(newTopic)`.  Guarded on a profile being present.
`setProfile({...profile, topic: newTopic})` runs **before** the try block;
on gateway failure only that profile replacement (and the cleared loading
flag) remains. -/
def handleSelectSuggested (newTopic : String)
    (remote : Except Unit LearningPath) (suggestions : List String)
    (s : AppState) : AppState :=
  match s.profile with
  | none => s
  | some p =>
      let newProfile := { p with topic := newTopic }
      match remote with
      | Except.ok path =>
          { s with
              profile := some newProfile
              learningPath := some path
              currentModule := path.modules.head?
              storedProfile := some newProfile
              storedPath := some path
              suggestedTitles := suggestions
              view := View.dashboard
              isLoading := false }
      | Except.error _ =>
          { s with profile := some newProfile, isLoading := false }

/-- `handleSelectModule(module)`: records the module, captures the session
start time, and shows the tutoring view. -/
def handleSelectModule (m : Module) (now : Nat) (s : AppState) : AppState :=
  { s with currentModule := some m, sessionStart := now, view := View.tutoring }

/-- `handleEndSession`: adds `Math.round((Date.now() - sessionStartTime) /
60000)` minutes to the profile's `timeSpentMinutes` (when a profile is
present) and shows the feedback view.  It performs no `saveState` call.
`now` is `Date.now()`; the subtraction is the non-negative elapsed time
(the claims only concern `sessionStart ≤ now`). -/
def handleEndSession (now : Nat) (s : AppState) : AppState :=
  let elapsed := jsElapsedMinutes (now - s.sessionStart)
  match s.profile with
  | some p =>
      { s with
          profile := some
            { p with
                performance :=
                  { p.performance with
                      timeSpentMinutes := p.performance.timeSpentMinutes + elapsed } }
          view := View.feedback }
  | none => { s with view := View.feedback }

/-- `submitFeedback(feedback)`: when both a profile and a learning path are
present, stores the rating in `performance.lastFeedback` and writes both
records through `saveState`; in every case it shows the dashboard. -/
def submitFeedback (feedback : SessionFeedback) (s : AppState) : AppState :=
  match s.profile, s.learningPath with
  | some p, some lp =>
      let updatedProfile :=
        { p with performance := { p.performance with lastFeedback := some feedback } }
      { s with
          profile := some updatedProfile
          storedProfile := some updatedProfile
          storedPath := some lp
          view := View.dashboard }
  | _, _ => { s with view := View.dashboard }

/-- `handleQuizComplete(score, total)`: guarded on path, module and profile
all present.  On a pass the current module's status is replaced by
`completed` inside the modules sequence; the score is appended to
`quizScores`; `averageAccuracy` is recomputed over the new sequence; on a
pass the module title is appended to `completedTopics`; finally `saveState`
writes the new profile and path.  (When the quiz is failed the code still
saves `newPath = {...learningPath}`, an identical copy.) -/
def handleQuizComplete (score total : Nat) (s : AppState) : AppState :=
  match s.learningPath, s.currentModule, s.profile with
  | some lp, some cur, some p =>
      let passed := jsPassed score total
      let newPath :=
        if passed then
          { lp with
              modules := lp.modules.map fun m =>
                if m.id = cur.id then { m with status := ModuleStatus.completed }
                else m }
        else lp
      let currentScores := p.performance.quizScores ++ [score]
      let newProfile :=
        { p with
            performance :=
              { p.performance with
                  quizScores := currentScores
                  averageAccuracy := jsAverageAccuracy currentScores
                  completedTopics :=
                    if passed then p.performance.completedTopics ++ [cur.title]
                    else p.performance.completedTopics } }
      { s with
          learningPath := some newPath
          profile := some newProfile
          storedProfile := some newProfile
          storedPath := some newPath }
  | _, _, _ => s

/-! ## Session restore (the mount `useEffect` of `App`) -/

/-- The restore effect.  `rawProfile`/`rawPath` are the `localStorage.getItem`
results; `parseProfile`/`parsePath` model the two `JSON.parse` calls
(`none` = the parse throws).  The returned `Bool` is true when an exception
escapes the effect.  Both parses precede every state setter, so whenever a
parse throws the component state is still `initialState`.  The truthiness
guard `if (savedProfile && savedPath)` also rejects empty strings. -/
def restoreSession (rawProfile rawPath : Option String)
    (parseProfile : String → Option UserProfile)
    (parsePath : String → Option LearningPath) : AppState × Bool :=
  match rawProfile, rawPath with
  | some sp, some spa =>
      if sp = "" ∨ spa = "" then (initialState, false)
      else
        match parseProfile sp with
        | none => (initialState, true)
        | some p =>
            match parsePath spa with
            | none => (initialState, true)
            | some path =>
                ({ initialState with
                    profile := some p
                    learningPath := some path
                    currentModule := path.modules.head?
                    view := View.dashboard
                    storedProfile := some p
                    storedPath := some path }, false)
  | _, _ => (initialState, false)

/-! ## The quiz view (`QuizView`) -/

/-- The score expression of `QuizView.handleNext`:
`answers.reduce((acc, ans, i) => ans === questions[i].correctAnswer ? acc + 1
: acc, 0)`.  An answer beyond the questions array compares a number against
`undefined`, which is never equal. -/
def jsScore : List Nat → List QuizQuestion → Nat
  | [], _ => 0
  | _ :: _, [] => 0
  | a :: as, q :: qs => (if a = q.correctAnswer then 1 else 0) + jsScore as qs

/-- The part of `QuizView`'s state that drives `handleNext`: the question
index and the recorded answers. -/
structure QuizRun where
  currentIdx : Nat
  answers : List Nat
deriving DecidableEq

/-- `QuizView.handleNext` with a selection made: appends the selection to
the answers; on a non-final question advances the index, on the final
question computes the score and fires `onComplete(score, questions.length)`
(the second component). -/
def handleNext (q : Quiz) (selected : Nat) (st : QuizRun) :
    QuizRun × Option (Nat × Nat) :=
  let newAnswers := st.answers ++ [selected]
  if st.currentIdx < q.questions.length - 1 then
    (⟨st.currentIdx + 1, newAnswers⟩, none)
  else
    (⟨st.currentIdx, newAnswers⟩,
      some (jsScore newAnswers q.questions, q.questions.length))

/-- Running `QuizView` over a sequence of selections, one `handleNext` per
selection, until `onComplete` fires (returning its arguments) or the
selections run out. -/
def runQuiz (q : Quiz) : QuizRun → List Nat → Option (Nat × Nat)
  | _, [] => none
  | st, sel :: rest =>
      match handleNext q sel st with
      | (_, some r) => some r
      | (st2, none) => runQuiz q st2 rest

/-! ## Concrete fixtures used by witnesses and counterexamples -/

/-- A concrete quiz question whose correct option is `i`. -/
def sampleQuestion (i : Nat) : QuizQuestion :=
  { question := "q", options := ["w", "x", "y", "z"], correctAnswer := i,
    explanation := "e" }

/-- A concrete 5-question quiz (correct answers 0, 1, 2, 3, 0). -/
def sampleQuiz : Quiz :=
  { title := "t"
    questions :=
      [sampleQuestion 0, sampleQuestion 1, sampleQuestion 2,
       sampleQuestion 3, sampleQuestion 0] }

/-- A concrete module. -/
def sampleModule : Module :=
  { id := "mod1", title := "Algebra Basics", description := "d",
    status := ModuleStatus.current, topics := ["t1"], videoUrl := none,
    sources := none }

/-- A concrete learning path holding `sampleModule`. -/
def samplePath : LearningPath :=
  { modules := [sampleModule], estimatedWeeks := 4,
    personalizedReasoning := "r" }

/-- A concrete profile with all onboarding fields non-empty and a fresh
performance record. -/
def sampleProfile : UserProfile :=
  { name := "Ada", classInfo := "Grade 11", subject := "Math",
    level := KnowledgeLevel.beginner,
    goal := LearningGoal.conceptUnderstanding,
    style := LearningStyle.mixed, timePerDay := 1, topic := "Algebra",
    language := "English",
    performance :=
      { quizScores := [], timeSpentMinutes := 0, lastFeedback := none,
        completedTopics := [], averageAccuracy := 0 } }

/-- A concrete dashboard state with profile, path and current module set. -/
def dashboardState : AppState :=
  { view := View.dashboard
    profile := some sampleProfile
    learningPath := some samplePath
    suggestedTitles := []
    currentModule := some sampleModule
    isLoading := false
    activeQuiz := none
    sessionStart := 0
    storedProfile := some sampleProfile
    storedPath := some samplePath }

/-- A concrete onboarding-view state (fresh app, no profile yet). -/
def onboardingState : AppState := { initialState with view := View.onboarding }

/-- A parse function that fails on every input: models `JSON.parse` throwing
on malformed stored text. -/
def failingParseProfile : String → Option UserProfile := fun _ => none

/-- A parse function that fails on every input (learning-path key). -/
def failingParsePath : String → Option LearningPath := fun _ => none

/-! ## Helper lemmas about quiz scoring -/

theorem jsScore_le (as : List Nat) (qs : List QuizQuestion) :
    jsScore as qs ≤ qs.length := by
  induction as generalizing qs with
  | nil => simp [jsScore]
  | cons a as ih =>
    cases qs with
    | nil => simp [jsScore]
    | cons q qs =>
      have := ih qs
      simp only [jsScore, List.length_cons]
      split <;> omega

theorem jsScore_all_correct (qs : List QuizQuestion) :
    jsScore (qs.map fun qq => qq.correctAnswer) qs = qs.length := by
  induction qs with
  | nil => rfl
  | cons q qs ih => simp [jsScore, ih]; omega

theorem jsScore_eq_countP (as : List Nat) (qs : List QuizQuestion) :
    jsScore as qs =
      (as.zip qs).countP fun pr => decide (pr.1 = pr.2.correctAnswer) := by
  induction as generalizing qs with
  | nil => simp [jsScore]
  | cons a as ih =>
    cases qs with
    | nil => simp [jsScore]
    | cons q qs =>
      by_cases h : a = q.correctAnswer <;>
        simp [jsScore, List.countP_cons, ih qs, h, Nat.add_comm]

theorem runQuiz_cons_step (q : Quiz) (sel : Nat) (st : QuizRun)
    (rest : List Nat) (h : st.currentIdx < q.questions.length - 1) :
    runQuiz q st (sel :: rest) =
      runQuiz q ⟨st.currentIdx + 1, st.answers ++ [sel]⟩ rest := by
  simp [runQuiz, handleNext, h]

theorem runQuiz_complete (q : Quiz) :
    ∀ (sels acc : List Nat), sels ≠ [] →
      acc.length + sels.length = q.questions.length →
      runQuiz q ⟨acc.length, acc⟩ sels =
        some (jsScore (acc ++ sels) q.questions, q.questions.length) := by
  intro sels
  induction sels with
  | nil => intro acc h; exact absurd rfl h
  | cons a rest ih =>
    intro acc _ hlen
    cases rest with
    | nil =>
      have hidx : ¬ acc.length < q.questions.length - 1 := by
        simp at hlen; omega
      simp [runQuiz, handleNext, hidx]
    | cons b rest2 =>
      have hidx : acc.length < q.questions.length - 1 := by
        simp at hlen; omega
      have hrec := ih (acc ++ [a]) (by simp)
        (by simp at hlen ⊢; omega)
      simp only [List.length_append, List.length_cons, List.length_nil] at hrec
      rw [runQuiz_cons_step q a ⟨acc.length, acc⟩ (b :: rest2) hidx]
      simpa [List.append_assoc] using hrec

/-! ## Claim theorems -/

/-- C6: for every profile, when path synthesis fails `generateLearningPath`
returns the deterministic fallback learning path: it contains exactly one
module, that module's status is `current`, and the rationale string visibly
marks the path as a fallback (it begins with the word "Fallback"). -/
theorem fallback_path_single_current_module
    (profile : UserProfile) (gs : List Source) :
    generateLearningPath profile (Except.error ()) gs = fallbackPath profile ∧
    (fallbackPath profile).modules = [fallbackModule profile.topic] ∧
    (fallbackPath profile).modules.length = 1 ∧
    (fallbackModule profile.topic).status = ModuleStatus.current ∧
    (fallbackPath profile).personalizedReasoning.data.take 8 =
      "Fallback".data := by
  refine ⟨rfl, rfl, rfl, rfl, ?_⟩
  simp only [fallbackPath]
  decide

/-- C10: every profile handed to `handleOnboardingComplete` by the
onboarding flow — the initial draft after any sequence of `setData` field
edits, cast by `onComplete(data as UserProfile)` — carries a zeroed
performance record: empty `quizScores`, zero `timeSpentMinutes`, absent
`lastFeedback`, empty `completedTopics`, zero `averageAccuracy`. -/
theorem onboarding_profile_zeroed_performance (ops : List OnboardingUpdate) :
    (draftToProfile (applyUpdates ops)).performance =
      { quizScores := [], timeSpentMinutes := 0, lastFeedback := none,
        completedTopics := [], averageAccuracy := 0 } := by
  have h : ∀ (l : List OnboardingUpdate) (d : OnboardingDraft),
      (l.foldl applyUpdate d).performance = d.performance := by
    intro l
    induction l with
    | nil => intro d; rfl
    | cons op rest ih =>
      intro d
      cases op <;> simp [List.foldl, applyUpdate, ih]
  simp [draftToProfile, applyUpdates, h, initialDraft]

/-- C8: for every quiz with at least one question, a complete run of the
quiz view (one recorded selection per question) fires the completion
handler with `total` equal to the number of questions and `score` equal to
the count of positions whose recorded answer matches that question's
`correctAnswer`; hence `score ≤ total` (and `0 ≤ score` holds in `Nat`). -/
theorem quizView_completion_score (q : Quiz) (sels : List Nat)
    (hne : 1 ≤ q.questions.length) (hlen : sels.length = q.questions.length) :
    runQuiz q ⟨0, []⟩ sels =
      some (jsScore sels q.questions, q.questions.length) ∧
    jsScore sels q.questions =
      (sels.zip q.questions).countP
        (fun pr => decide (pr.1 = pr.2.correctAnswer)) ∧
    jsScore sels q.questions ≤ q.questions.length := by
  have hsels : sels ≠ [] := by
    intro hcon
    rw [hcon] at hlen
    simp at hlen
    omega
  refine ⟨?_, jsScore_eq_countP sels q.questions, jsScore_le sels q.questions⟩
  simpa using runQuiz_complete q sels [] hsels (by simpa using hlen)

/-- Witness for C8 at a concrete 5-question quiz and selection list
(selections 0, 1, 2, 3, 1 score 4 of 5). -/
theorem quizView_completion_score_witness :
    runQuiz sampleQuiz ⟨0, []⟩ [0, 1, 2, 3, 1] =
      some (jsScore [0, 1, 2, 3, 1] sampleQuiz.questions,
        sampleQuiz.questions.length) ∧
    jsScore [0, 1, 2, 3, 1] sampleQuiz.questions =
      (([0, 1, 2, 3, 1] : List Nat).zip sampleQuiz.questions).countP
        (fun pr => decide (pr.1 = pr.2.correctAnswer)) ∧
    jsScore [0, 1, 2, 3, 1] sampleQuiz.questions ≤
      sampleQuiz.questions.length :=
  quizView_completion_score sampleQuiz [0, 1, 2, 3, 1] (by decide) (by decide)

/-- C1: for every 5-question quiz in which every recorded answer equals the
question's `correctAnswer` index, the quiz view completes with
`score = 5` and `total = 5`; `handleQuizComplete 5 5` then passes
(`5/5 ≥ 0.8`), replaces the current module's status with `completed`
inside the learning path's module sequence, and appends exactly one new
entry — the module title — to `performance.completedTopics`. -/
theorem quiz_all_correct_completes_module
    (q : Quiz) (s : AppState) (lp : LearningPath) (cur : Module)
    (p : UserProfile) (hq : q.questions.length = 5)
    (hlp : s.learningPath = some lp) (hcur : s.currentModule = some cur)
    (hp : s.profile = some p) :
    runQuiz q ⟨0, []⟩ (q.questions.map fun qq => qq.correctAnswer) =
      some (5, 5) ∧
    jsPassed 5 5 = true ∧
    (handleQuizComplete 5 5 s).learningPath =
      some { lp with
          modules := lp.modules.map fun m =>
            if m.id = cur.id then { m with status := ModuleStatus.completed }
            else m } ∧
    (handleQuizComplete 5 5 s).profile.map
        (fun x => x.performance.completedTopics) =
      some (p.performance.completedTopics ++ [cur.title]) := by
  have hmapne : (q.questions.map fun qq => qq.correctAnswer) ≠ [] := by
    intro hcon
    have hlen2 := congrArg List.length hcon
    simp [hq] at hlen2
  have hrun := runQuiz_complete q (q.questions.map fun qq => qq.correctAnswer)
    [] hmapne (by simp)
  refine ⟨?_, by decide, ?_, ?_⟩
  · simpa [jsScore_all_correct, hq] using hrun
  · simp [handleQuizComplete, hlp, hcur, hp, jsPassed]
  · simp [handleQuizComplete, hlp, hcur, hp, jsPassed]

/-- Witness for C1 at `sampleQuiz` (5 questions) and `dashboardState`. -/
theorem quiz_all_correct_completes_module_witness :
    runQuiz sampleQuiz ⟨0, []⟩
        (sampleQuiz.questions.map fun qq => qq.correctAnswer) =
      some (5, 5) ∧
    jsPassed 5 5 = true ∧
    (handleQuizComplete 5 5 dashboardState).learningPath =
      some { samplePath with
          modules := samplePath.modules.map fun m =>
            if m.id = sampleModule.id then
              { m with status := ModuleStatus.completed }
            else m } ∧
    (handleQuizComplete 5 5 dashboardState).profile.map
        (fun x => x.performance.completedTopics) =
      some (sampleProfile.performance.completedTopics ++
        [sampleModule.title]) :=
  quiz_all_correct_completes_module sampleQuiz dashboardState samplePath
    sampleModule sampleProfile (by decide) rfl rfl rfl

/-- C3: after every quiz completion `performance.averageAccuracy` equals
`Math.round(sum(quizScores) / (count(quizScores) * 5) * 100)` over the
updated score sequence, and no other profile mutator (`handleEndSession`,
`submitFeedback`, `handleSelectSuggested` in either outcome) ever changes
it; in particular `quizScores = [5, 3]` yields 80. -/
theorem averageAccuracy_recomputed
    (score total : Nat) (s : AppState) (lp : LearningPath) (cur : Module)
    (p : UserProfile) (hlp : s.learningPath = some lp)
    (hcur : s.currentModule = some cur) (hp : s.profile = some p)
    (now : Nat) (fb : SessionFeedback) (t : String)
    (remote : Except Unit LearningPath) (sugg : List String) :
    (handleQuizComplete score total s).profile.map
        (fun x => x.performance.averageAccuracy) =
      some (jsAverageAccuracy (p.performance.quizScores ++ [score])) ∧
    (handleEndSession now s).profile.map
        (fun x => x.performance.averageAccuracy) =
      s.profile.map (fun x => x.performance.averageAccuracy) ∧
    (submitFeedback fb s).profile.map
        (fun x => x.performance.averageAccuracy) =
      s.profile.map (fun x => x.performance.averageAccuracy) ∧
    (handleSelectSuggested t remote sugg s).profile.map
        (fun x => x.performance.averageAccuracy) =
      s.profile.map (fun x => x.performance.averageAccuracy) ∧
    jsAverageAccuracy [5, 3] = 80 := by
  refine ⟨?_, ?_, ?_, ?_, by decide⟩
  · simp [handleQuizComplete, hlp, hcur, hp]
  · simp [handleEndSession, hp]
  · simp [submitFeedback, hp, hlp]
  · cases remote <;> simp [handleSelectSuggested, hp]

/-- Witness for C3 at `dashboardState` with a quiz score of 4 of 5. -/
theorem averageAccuracy_recomputed_witness :
    (handleQuizComplete 4 5 dashboardState).profile.map
        (fun x => x.performance.averageAccuracy) =
      some (jsAverageAccuracy
        (sampleProfile.performance.quizScores ++ [4])) ∧
    (handleEndSession 90000 dashboardState).profile.map
        (fun x => x.performance.averageAccuracy) =
      dashboardState.profile.map (fun x => x.performance.averageAccuracy) ∧
    (submitFeedback SessionFeedback.easy dashboardState).profile.map
        (fun x => x.performance.averageAccuracy) =
      dashboardState.profile.map (fun x => x.performance.averageAccuracy) ∧
    (handleSelectSuggested "Geometry" (Except.error ()) []
        dashboardState).profile.map
        (fun x => x.performance.averageAccuracy) =
      dashboardState.profile.map (fun x => x.performance.averageAccuracy) ∧
    jsAverageAccuracy [5, 3] = 80 :=
  averageAccuracy_recomputed 4 5 dashboardState samplePath sampleModule
    sampleProfile rfl rfl rfl 90000 SessionFeedback.easy "Geometry"
    (Except.error ()) []

/-- C7: for a tutoring session started by `handleSelectModule` at time `t0`
and ended at time `t1 ≥ t0`, `handleEndSession` adds exactly
`Math.round((t1 − t0) / 60000)` minutes (a `Nat`, hence non-negative; 0
whenever the elapsed time is under 30000 ms) to
`performance.timeSpentMinutes`, writes nothing to persistence, and
transitions to the feedback view. -/
theorem endSession_adds_rounded_minutes
    (s : AppState) (m : Module) (t0 t1 : Nat) (p : UserProfile)
    (_hle : t0 ≤ t1) (hp : s.profile = some p) :
    (handleEndSession t1 (handleSelectModule m t0 s)).view = View.feedback ∧
    (handleEndSession t1 (handleSelectModule m t0 s)).profile =
      some { p with
          performance := { p.performance with
              timeSpentMinutes :=
                p.performance.timeSpentMinutes +
                  jsElapsedMinutes (t1 - t0) } } ∧
    (handleEndSession t1 (handleSelectModule m t0 s)).storedProfile =
      s.storedProfile ∧
    (handleEndSession t1 (handleSelectModule m t0 s)).storedPath =
      s.storedPath ∧
    (t1 - t0 < 30000 → jsElapsedMinutes (t1 - t0) = 0) := by
  refine ⟨?_, ?_, ?_, ?_, fun h => ?_⟩
  · simp [handleSelectModule, handleEndSession, hp]
  · simp [handleSelectModule, handleEndSession, hp]
  · simp [handleSelectModule, handleEndSession, hp]
  · simp [handleSelectModule, handleEndSession, hp]
  · exact Nat.div_eq_of_lt (by omega)

/-- Witness for C7: a 29999 ms session at `dashboardState` adds 0 minutes. -/
theorem endSession_adds_rounded_minutes_witness :
    (handleEndSession 29999
        (handleSelectModule sampleModule 0 dashboardState)).view =
      View.feedback ∧
    (handleEndSession 29999
        (handleSelectModule sampleModule 0 dashboardState)).profile =
      some { sampleProfile with
          performance := { sampleProfile.performance with
              timeSpentMinutes :=
                sampleProfile.performance.timeSpentMinutes +
                  jsElapsedMinutes (29999 - 0) } } ∧
    (handleEndSession 29999
        (handleSelectModule sampleModule 0 dashboardState)).storedProfile =
      dashboardState.storedProfile ∧
    (handleEndSession 29999
        (handleSelectModule sampleModule 0 dashboardState)).storedPath =
      dashboardState.storedPath ∧
    (29999 - 0 < 30000 → jsElapsedMinutes (29999 - 0) = 0) :=
  endSession_adds_rounded_minutes dashboardState sampleModule 0 29999
    sampleProfile (by omega) rfl

/-- C9: when `submitFeedback` fires with no profile or no learning path
loaded, the state changes in the view component only (it becomes
Dashboard) — profile, path, module and both storage keys are untouched;
when both are present, the updated profile and the path are written to
storage together, both keys at once. -/
theorem submitFeedback_frame (fb : SessionFeedback) (s : AppState) :
    ((s.profile = none ∨ s.learningPath = none) →
        submitFeedback fb s = { s with view := View.dashboard }) ∧
    (∀ pr lp, s.profile = some pr → s.learningPath = some lp →
        (submitFeedback fb s).storedProfile =
          some { pr with
              performance := { pr.performance with
                  lastFeedback := some fb } } ∧
        (submitFeedback fb s).storedPath = some lp ∧
        (submitFeedback fb s).profile =
          some { pr with
              performance := { pr.performance with
                  lastFeedback := some fb } } ∧
        (submitFeedback fb s).view = View.dashboard) := by
  constructor
  · intro h
    cases hsp : s.profile with
    | none => simp [submitFeedback, hsp]
    | some pr =>
        cases hslp : s.learningPath with
        | none => simp [submitFeedback, hsp, hslp]
        | some lp => rw [hsp, hslp] at h; simp at h
  · intro pr lp hpr hlp
    simp [submitFeedback, hpr, hlp]

/-- Witness for C9: an empty state keeps everything but the view, and at
`dashboardState` both storage keys are written together. -/
theorem submitFeedback_frame_witness :
    submitFeedback SessionFeedback.easy initialState =
      { initialState with view := View.dashboard } ∧
    (submitFeedback SessionFeedback.easy dashboardState).storedPath =
      some samplePath :=
  ⟨(submitFeedback_frame SessionFeedback.easy initialState).1 (Or.inl rfl),
    ((submitFeedback_frame SessionFeedback.easy dashboardState).2
      sampleProfile samplePath rfl rfl).2.1⟩

/-- C2 counterexample: at the fresh onboarding state with a fully valid
draft (`sampleProfile`), a failing gateway call leaves the view at
Onboarding (so Dashboard is not reached) **and** replaces the in-memory
profile (`none` becomes `some draft`, because `setProfile(userData)` runs
before the try block) — so neither disjunct of the claim holds. -/
theorem onboarding_failure_mutates_profile :
    ¬ (handleOnboardingComplete sampleProfile (Except.error ()) []
        onboardingState).view = View.dashboard ∧
    ¬ (handleOnboardingComplete sampleProfile (Except.error ()) []
        onboardingState).profile = onboardingState.profile := by
  decide

/-- C2 amended: for every valid onboarding draft, `completeOnboarding`
either (gateway success) reaches Dashboard with profile equal to the draft,
the learning path equal to the gateway's result (with a current module
whenever that result has any module), and both records persisted, or
(gateway failure) leaves view, learning path, current module and persisted
storage unchanged and clears the loading flag — but sets the in-memory
profile to the draft. -/
theorem onboarding_complete_amended
    (d : UserProfile) (sugg : List String) (s : AppState)
    (_hname : d.name ≠ "") (_hclass : d.classInfo ≠ "")
    (_hsubj : d.subject ≠ "") (_htopic : d.topic ≠ "") :
    (∀ path,
        (handleOnboardingComplete d (Except.ok path) sugg s).view =
          View.dashboard ∧
        (handleOnboardingComplete d (Except.ok path) sugg s).profile =
          some d ∧
        (handleOnboardingComplete d (Except.ok path) sugg s).learningPath =
          some path ∧
        (handleOnboardingComplete d (Except.ok path) sugg s).currentModule =
          path.modules.head? ∧
        (path.modules ≠ [] →
          ∃ m0, (handleOnboardingComplete d (Except.ok path) sugg
            s).currentModule = some m0) ∧
        (handleOnboardingComplete d (Except.ok path) sugg s).storedProfile =
          some d ∧
        (handleOnboardingComplete d (Except.ok path) sugg s).storedPath =
          some path) ∧
    ((handleOnboardingComplete d (Except.error ()) sugg s).view = s.view ∧
      (handleOnboardingComplete d (Except.error ()) sugg s).learningPath =
        s.learningPath ∧
      (handleOnboardingComplete d (Except.error ()) sugg s).currentModule =
        s.currentModule ∧
      (handleOnboardingComplete d (Except.error ()) sugg s).storedProfile =
        s.storedProfile ∧
      (handleOnboardingComplete d (Except.error ()) sugg s).storedPath =
        s.storedPath ∧
      (handleOnboardingComplete d (Except.error ()) sugg s).profile =
        some d ∧
      (handleOnboardingComplete d (Except.error ()) sugg s).isLoading =
        false) := by
  constructor
  · intro path
    refine ⟨rfl, rfl, rfl, rfl, fun hne => ?_, rfl, rfl⟩
    cases hmods : path.modules with
    | nil => exact absurd hmods hne
    | cons m0 rest =>
        exact ⟨m0, by simp [handleOnboardingComplete, hmods]⟩
  · exact ⟨rfl, rfl, rfl, rfl, rfl, rfl, rfl⟩

/-- Witness for the amended C2 at the fresh onboarding state. -/
theorem onboarding_complete_amended_witness :
    (handleOnboardingComplete sampleProfile (Except.ok samplePath) []
        onboardingState).view = View.dashboard ∧
    (handleOnboardingComplete sampleProfile (Except.error ()) []
        onboardingState).profile = some sampleProfile :=
  ⟨((onboarding_complete_amended sampleProfile [] onboardingState
      (by decide) (by decide) (by decide) (by decide)).1 samplePath).1,
    ((onboarding_complete_amended sampleProfile [] onboardingState
      (by decide) (by decide) (by decide) (by decide)).2).2.2.2.2.2.1⟩

/-- C4 counterexample: at `dashboardState` (profile topic "Algebra"), a
failing path-synthesis call for the suggested title "Geometry" leaves the
in-memory profile with topic "Geometry" — `setProfile(newProfile)` runs
before the try block — so "profile (including its topic) unchanged" fails. -/
theorem selectSuggested_failure_mutates_topic :
    (handleSelectSuggested "Geometry" (Except.error ()) []
        dashboardState).profile.map (fun pr => pr.topic) = some "Geometry" ∧
    dashboardState.profile.map (fun pr => pr.topic) = some "Algebra" := by
  decide

/-- C4 amended: in the Dashboard view with a profile present, when the
path-synthesis call of `selectSuggestedTopic` fails, the view, learning
path, current module, suggestions and both storage keys are unchanged —
but the profile has been replaced by one whose topic is the selected
title (and the loading flag is cleared). -/
theorem selectSuggested_failure_amended
    (title : String) (sugg : List String) (s : AppState) (p : UserProfile)
    (hp : s.profile = some p) :
    (handleSelectSuggested title (Except.error ()) sugg s).view = s.view ∧
    (handleSelectSuggested title (Except.error ()) sugg s).learningPath =
      s.learningPath ∧
    (handleSelectSuggested title (Except.error ()) sugg s).currentModule =
      s.currentModule ∧
    (handleSelectSuggested title (Except.error ()) sugg s).storedProfile =
      s.storedProfile ∧
    (handleSelectSuggested title (Except.error ()) sugg s).storedPath =
      s.storedPath ∧
    (handleSelectSuggested title (Except.error ()) sugg s).suggestedTitles =
      s.suggestedTitles ∧
    (handleSelectSuggested title (Except.error ()) sugg s).profile =
      some { p with topic := title } := by
  simp [handleSelectSuggested, hp]

/-- Witness for the amended C4 at `dashboardState`. -/
theorem selectSuggested_failure_amended_witness :
    (handleSelectSuggested "Geometry" (Except.error ()) []
        dashboardState).view = dashboardState.view ∧
    (handleSelectSuggested "Geometry" (Except.error ()) []
        dashboardState).learningPath = dashboardState.learningPath ∧
    (handleSelectSuggested "Geometry" (Except.error ()) []
        dashboardState).currentModule = dashboardState.currentModule ∧
    (handleSelectSuggested "Geometry" (Except.error ()) []
        dashboardState).storedProfile = dashboardState.storedProfile ∧
    (handleSelectSuggested "Geometry" (Except.error ()) []
        dashboardState).storedPath = dashboardState.storedPath ∧
    (handleSelectSuggested "Geometry" (Except.error ()) []
        dashboardState).suggestedTitles = dashboardState.suggestedTitles ∧
    (handleSelectSuggested "Geometry" (Except.error ()) []
        dashboardState).profile =
      some { sampleProfile with topic := "Geometry" } :=
  selectSuggested_failure_amended "Geometry" [] dashboardState
    sampleProfile rfl

/-- C5 counterexample: with both keys present but unparseable (the parse
functions model `JSON.parse` throwing on malformed text), the restore
effect does leave the state at the initial Welcome state, but the
exception escapes the effect uncaught — there is no try/catch around the
two `JSON.parse` calls — contradicting "without surfacing an error". -/
theorem restore_bad_json_surfaces_error :
    (restoreSession (some "not json") (some "not json")
        failingParseProfile failingParsePath).2 = true ∧
    (restoreSession (some "not json") (some "not json")
        failingParseProfile failingParsePath).1.view = View.welcome := by
  decide

/-- C5 amended: when either stored record fails to deserialize, the restore
effect performs no state mutation — the session stays at the initial
Welcome state — but the parse exception propagates out of the effect
instead of being silently swallowed; when only one (or neither) of the two
records is present, startup treats the pair as absent and starts fresh
with no error. -/
theorem restore_decode_failure_amended
    (rp rpa : Option String)
    (pp : String → Option UserProfile)
    (ppa : String → Option LearningPath) :
    ((rp = none ∨ rpa = none) →
        restoreSession rp rpa pp ppa = (initialState, false)) ∧
    (∀ sp spa, rp = some sp → rpa = some spa → ¬ (sp = "" ∨ spa = "") →
        pp sp = none →
        restoreSession rp rpa pp ppa = (initialState, true)) ∧
    (∀ sp spa pr, rp = some sp → rpa = some spa → ¬ (sp = "" ∨ spa = "") →
        pp sp = some pr → ppa spa = none →
        restoreSession rp rpa pp ppa = (initialState, true)) := by
  refine ⟨?_, ?_, ?_⟩
  · intro h
    cases rp with
    | none => cases rpa <;> rfl
    | some sp =>
        cases rpa with
        | none => rfl
        | some spa => simp at h
  · intro sp spa hrp hrpa hne hpp
    subst hrp; subst hrpa
    simp [restoreSession, hne, hpp]
  · intro sp spa pr hrp hrpa hne hpp hppa
    subst hrp; subst hrpa
    simp [restoreSession, hne, hpp, hppa]

/-- Witness for the amended C5: one key absent starts fresh without error;
both keys present but unparseable keeps the initial state and throws. -/
theorem restore_decode_failure_amended_witness :
    restoreSession (some "x") none failingParseProfile failingParsePath =
      (initialState, false) ∧
    restoreSession (some "not json") (some "not json") failingParseProfile
      failingParsePath = (initialState, true) :=
  ⟨(restore_decode_failure_amended (some "x") none failingParseProfile
      failingParsePath).1 (Or.inr rfl),
    (restore_decode_failure_amended (some "not json") (some "not json")
      failingParseProfile failingParsePath).2.1 "not json" "not json" rfl
      rfl (by decide) rfl⟩

end Edupal
